import Mathlib

set_option maxRecDepth 8000

namespace BrowserDeviceProfile

/-! Shallow embedding of `src/js/browser-device-profile.js`.

The ambient browser/TV platform (the `tizen` global, the user agent, the
`canPlayType` answers of the throwaway media elements, `window.MediaSource`,
and the `webapis.productinfo` panel query) is modelled by the `Platform`
structure.  Each probe function of the source becomes a Lean function on
`Platform`; the profile assembler `getDeviceProfile` is transcribed
statement by statement, with the module-level `_canPlayHls` cache threaded
explicitly as an `Option Bool` state. -/

/-- Embedding of one JSON condition object (`Condition`/`Property`/`Value`/
`IsRequired`).  `isRequired = none` models a source object that omits the
`IsRequired` field (as the standalone global-bitrate condition does). -/
structure Condition where
  cond : String
  property : String
  value : String
  isRequired : Option Bool
deriving DecidableEq, Repr, Inhabited

/-- Embedding of a `DirectPlayProfiles` entry.  Audio entries omit the
`VideoCodec` and `AudioCodec` fields, hence the `Option`s. -/
structure DirectPlayProfile where
  container : String
  type : String
  videoCodec : Option String
  audioCodec : Option String
deriving DecidableEq, Repr, Inhabited

/-- Embedding of a `TranscodingProfiles` entry. -/
structure TranscodingProfile where
  container : String
  type : String
  audioCodec : String
  videoCodec : Option String
  context : String
  protocol : String
  maxAudioChannels : String
  minSegments : Option String
  breakOnNonKeyFrames : Option Bool
deriving DecidableEq, Repr, Inhabited

/-- Embedding of a `ContainerProfiles` entry. -/
structure ContainerProfile where
  type : String
  conditions : List Condition
deriving DecidableEq, Repr, Inhabited

/-- Embedding of a `CodecProfiles` entry; `codec = none` models an entry
without a `Codec` field (applies to every codec of the media type). -/
structure CodecProfile where
  type : String
  codec : Option String
  conditions : List Condition
deriving DecidableEq, Repr, Inhabited

/-- Embedding of a `SubtitleProfiles` entry. -/
structure SubtitleProfile where
  format : String
  method : String
deriving DecidableEq, Repr, Inhabited

/-- Embedding of a `ResponseProfiles` entry. -/
structure ResponseProfile where
  type : String
  container : String
  mimeType : String
deriving DecidableEq, Repr, Inhabited

/-- The assembled negotiation document returned by `getDeviceProfile`. -/
structure DeviceProfile where
  maxStreamingBitrate : Nat
  maxStaticBitrate : Nat
  musicStreamingTranscodingBitrate : Nat
  directPlayProfiles : List DirectPlayProfile
  transcodingProfiles : List TranscodingProfile
  containerProfiles : List ContainerProfile
  codecProfiles : List CodecProfile
  subtitleProfiles : List SubtitleProfile
  responseProfiles : List ResponseProfile
deriving DecidableEq, Repr, Inhabited

/-- Outcome of the `webapis.productinfo.isUdPanelSupported()` query:
the API may be missing, may throw, or may report whether the panel is UHD. -/
inductive ProductInfo where
  | absent : ProductInfo
  | throws : ProductInfo
  | panel : Bool → ProductInfo
deriving DecidableEq, Repr, Inhabited

/-- Ambient platform state consulted by the probe functions.
`videoCanPlay s` (resp. `audioCanPlay s`) is the truth value of the source
expression `!!(el.canPlayType && el.canPlayType(s).replace(/no/, ""))` for the
throwaway video (resp. audio) element.  `uaContainsTizen` is the result of the
user-agent substring test and `uaTizenVersion` the optional
`major`/`minor` capture of the version regex. -/
structure Platform where
  hasTizenObject : Bool
  uaContainsTizen : Bool
  uaTizenVersion : Option (Nat × Nat)
  videoCanPlay : String → Bool
  audioCanPlay : String → Bool
  hasMediaSource : Bool
  productInfo : ProductInfo

/-- Embedding of `isTizen()`. -/
def isTizen (p : Platform) : Bool :=
  p.hasTizenObject || p.uaContainsTizen

/-- Embedding of `getTizenVersion()`.  The source returns the float
`major + minor / 10`; it is represented here exactly, scaled by ten
(so `5.5` becomes `55`, and the default assumption `4.0` becomes `40`). -/
def getTizenVersionTenths (p : Platform) : Nat :=
  if !isTizen p then 0
  else
    match p.uaTizenVersion with
    | some (maj, mi) => 10 * maj + mi
    | none => 40

/-- Embedding of `canPlayH264()`. -/
def canPlayH264 (p : Platform) : Bool :=
  p.videoCanPlay ("video/mp4; codecs=\"avc1.42E01E, mp4a.40.2\"")

/-- Embedding of `canPlayHevc()`. -/
def canPlayHevc (p : Platform) : Bool :=
  if isTizen p then true
  else
    p.videoCanPlay ("video/mp4; codecs=\"hvc1.1.L120\"") ||
    p.videoCanPlay ("video/mp4; codecs=\"hev1.1.L120\"") ||
    p.videoCanPlay ("video/mp4; codecs=\"hvc1.1.0.L120\"") ||
    p.videoCanPlay ("video/mp4; codecs=\"hev1.1.0.L120\"")

/-- Embedding of `canPlayAv1()`. -/
def canPlayAv1 (p : Platform) : Bool :=
  if 55 ≤ getTizenVersionTenths p then true
  else
    p.videoCanPlay ("video/mp4; codecs=\"av01.0.15M.08\"") &&
    p.videoCanPlay ("video/mp4; codecs=\"av01.0.15M.10\"")

/-- Embedding of `canPlayVp8()`. -/
def canPlayVp8 (p : Platform) : Bool :=
  p.videoCanPlay ("video/webm; codecs=\"vp8\"")

/-- Embedding of `canPlayVp9()`. -/
def canPlayVp9 (p : Platform) : Bool :=
  p.videoCanPlay ("video/webm; codecs=\"vp9\"")

/-- Embedding of `supportsAc3()`. -/
def supportsAc3 (p : Platform) : Bool :=
  if isTizen p then true
  else p.videoCanPlay ("audio/mp4; codecs=\"ac-3\"")

/-- Embedding of `supportsEac3()`. -/
def supportsEac3 (p : Platform) : Bool :=
  if isTizen p then true
  else p.videoCanPlay ("audio/mp4; codecs=\"ec-3\"")

/-- Embedding of `canPlayDts()`. -/
def canPlayDts (p : Platform) : Bool :=
  if 40 ≤ getTizenVersionTenths p then false
  else
    p.videoCanPlay ("video/mp4; codecs=\"dts-\"") ||
    p.videoCanPlay ("video/mp4; codecs=\"dts+\"")

/-- Embedding of `canPlayNativeHls()`. -/
def canPlayNativeHls (p : Platform) : Bool :=
  if isTizen p then true
  else
    p.videoCanPlay ("application/x-mpegURL") ||
    p.videoCanPlay ("application/vnd.apple.mpegURL")

/-- Embedding of `canPlayHlsWithMSE()`. -/
def canPlayHlsWithMSE (p : Platform) : Bool :=
  p.hasMediaSource

/-- The value `canPlayHls()` computes on a cache miss. -/
def canPlayHlsPure (p : Platform) : Bool :=
  canPlayNativeHls p || canPlayHlsWithMSE p

/-- Embedding of `canPlayHls()` together with the module-level `_canPlayHls`
cache: takes the current cache and returns the answer with the updated cache. -/
def canPlayHlsCached (p : Platform) (cache : Option Bool) : Bool × Option Bool :=
  match cache with
  | some b => (b, some b)
  | none => (canPlayHlsPure p, some (canPlayHlsPure p))

/-- Embedding of `canPlayNativeHlsInFmp4()`. -/
def canPlayNativeHlsInFmp4 (p : Platform) : Bool :=
  50 ≤ getTizenVersionTenths p

/-- Embedding of `supportsHdr10()`. -/
def supportsHdr10 (p : Platform) : Bool :=
  isTizen p

/-- Embedding of `supportsHlg()`. -/
def supportsHlg (p : Platform) : Bool :=
  supportsHdr10 p

/-- Embedding of `supportsDolbyVision()`: the source returns `false`
unconditionally. -/
def supportsDolbyVision (_ : Platform) : Bool :=
  false

/-- Embedding of `canPlayMkv()`. -/
def canPlayMkv (p : Platform) : Bool :=
  if isTizen p then true
  else
    p.videoCanPlay ("video/x-matroska") ||
    p.videoCanPlay ("video/mkv")

/-- Embedding of `canPlayTs()`. -/
def canPlayTs (p : Platform) : Bool :=
  isTizen p

/-- Embedding of `canPlayAudioFormat(format)`. -/
def canPlayAudioFormat (p : Platform) (format : String) : Bool :=
  if isTizen p && (format == "flac" || format == "asf" || format == "wma") then
    true
  else
    let typeString : Option String :=
      if format == "opus" then some ("audio/ogg; codecs=\"opus\"")
      else if format == "webma" then some ("audio/webm")
      else if format == "mp3" then some ("audio/mpeg")
      else if format == "aac" then some ("audio/mp4; codecs=\"mp4a.40.2\"")
      else if format == "flac" then some ("audio/flac")
      else if format == "wav" then some ("audio/wav")
      else if format == "ogg" then some ("audio/ogg")
      else none
    match typeString with
    | some t => p.audioCanPlay t
    | none => false

/-- Embedding of `getMaxH264Level()`. -/
def getMaxH264Level (p : Platform) : Nat :=
  if 50 ≤ getTizenVersionTenths p then 52
  else if isTizen p then 51
  else if p.videoCanPlay ("video/mp4; codecs=\"avc1.640833\"") then 51
  else 42

/-- Embedding of `getMaxHevcLevel()`. -/
def getMaxHevcLevel (p : Platform) : Nat :=
  if p.videoCanPlay ("video/mp4; codecs=\"hvc1.2.4.L186\"") then 186
  else if p.videoCanPlay ("video/mp4; codecs=\"hvc1.2.4.L183\"") then 183
  else if p.videoCanPlay ("video/mp4; codecs=\"hvc1.2.4.L153\"") then 153
  else if isTizen p then 153
  else 120

/-- Embedding of `getHevcProfiles()`. -/
def getHevcProfiles (p : Platform) : String :=
  if p.videoCanPlay ("video/mp4; codecs=\"hvc1.2.4.L123\"") ||
     p.videoCanPlay ("video/mp4; codecs=\"hev1.2.4.L123\"") then "main|main 10"
  else if isTizen p then "main|main 10"
  else "main"

/-- Embedding of `getPhysicalAudioChannels()`. -/
def getPhysicalAudioChannels (p : Platform) : Nat :=
  if isTizen p then 6 else 2

/-- Embedding of `getGlobalMaxVideoBitrate()`: `none` models the JS `null`
("no limit"); a missing `webapis.productinfo` and a throwing panel query both
fall through to `null`. -/
def getGlobalMaxVideoBitrate (p : Platform) : Option Nat :=
  if isTizen p then
    match p.productInfo with
    | ProductInfo.panel isUhd => if isUhd then none else some 20000000
    | _ => none
  else none

/-- The probe results `getDeviceProfile` consumes, one field per probe call
site of the source (the HLS answer is the possibly cached one). -/
structure Facts where
  tizen : Bool
  tizenVersion : Nat
  h264 : Bool
  hevc : Bool
  av1 : Bool
  ac3 : Bool
  eac3 : Bool
  dts : Bool
  hls : Bool
  hlsInFmp4 : Bool
  hdr10 : Bool
  hlg : Bool
  mkv : Bool
  ts : Bool
  audioFormat : String → Bool
  maxH264Level : Nat
  maxHevcLevel : Nat
  hevcProfiles : String
  physicalAudioChannels : Nat
  globalMaxVideoBitrate : Option Nat

/-- The probe results of a platform, with the (possibly cached) HLS answer. -/
def factsOf (p : Platform) (hls : Bool) : Facts where
  tizen := isTizen p
  tizenVersion := getTizenVersionTenths p
  h264 := canPlayH264 p
  hevc := canPlayHevc p
  av1 := canPlayAv1 p
  ac3 := supportsAc3 p
  eac3 := supportsEac3 p
  dts := canPlayDts p
  hls := hls
  hlsInFmp4 := canPlayNativeHlsInFmp4 p
  hdr10 := supportsHdr10 p
  hlg := supportsHlg p
  mkv := canPlayMkv p
  ts := canPlayTs p
  audioFormat := canPlayAudioFormat p
  maxH264Level := getMaxH264Level p
  maxHevcLevel := getMaxHevcLevel p
  hevcProfiles := getHevcProfiles p
  physicalAudioChannels := getPhysicalAudioChannels p
  globalMaxVideoBitrate := getGlobalMaxVideoBitrate p

/-- JS truthiness of the `globalMaxVideoBitrate` value (`null` and `0` are
falsy). -/
def jsTruthy : Option Nat → Bool
  | some v => v != 0
  | none => false

/-- The `videoAudioCodecs` array of `getDeviceProfile`. -/
def videoAudioCodecsOf (f : Facts) : List String :=
  ["aac", "mp3"]
    ++ (if f.ac3 then ["ac3"] else [])
    ++ (if f.eac3 then ["eac3"] else [])
    ++ (if f.dts then ["dca", "dts"] else [])
    ++ (if f.tizen then ["pcm_s16le", "pcm_s24le", "aac_latm"] else [])
    ++ (if f.audioFormat ("opus") then ["opus"] else [])
    ++ (if f.audioFormat ("flac") && !f.tizen then ["flac"] else [])

/-- The `mp4VideoCodecs` array of `getDeviceProfile`. -/
def mp4VideoCodecsOf (f : Facts) : List String :=
  (if f.h264 then ["h264"] else [])
    ++ (if f.hevc then ["hevc"] else [])
    ++ (if f.av1 then ["av1"] else [])

/-- The `mkvVideoCodecs` array of `getDeviceProfile`. -/
def mkvVideoCodecsOf (f : Facts) : List String :=
  (if f.h264 then ["h264"] else [])
    ++ (if f.hevc then ["hevc"] else [])
    ++ (if f.av1 then ["av1"] else [])

/-- The `hlsVideoCodecs` array of `getDeviceProfile`. -/
def hlsVideoCodecsOf (f : Facts) : List String :=
  (if f.h264 then ["h264"] else [])
    ++ (if f.hevc && f.tizen then ["hevc"] else [])

/-- The `hlsAudioCodecs` array of `getDeviceProfile`. -/
def hlsAudioCodecsOf (f : Facts) : List String :=
  ["aac", "mp3"]
    ++ (if f.ac3 then ["ac3"] else [])
    ++ (if f.eac3 then ["eac3"] else [])

/-- The `tsVideoCodecs` array of `getDeviceProfile` (note the unconditional
`"h264"` seed). -/
def tsVideoCodecsOf (f : Facts) : List String :=
  ["h264"] ++ (if f.hevc then ["hevc"] else [])

/-- The `DirectPlayProfiles` list assembled by `getDeviceProfile`. -/
def directPlayProfilesOf (f : Facts) : List DirectPlayProfile :=
  (if (mp4VideoCodecsOf f).length != 0 then
    [⟨"mp4,m4v", "Video",
      some (String.intercalate (",") (mp4VideoCodecsOf f)),
      some (String.intercalate (",") (videoAudioCodecsOf f))⟩]
   else [])
  ++ (if f.mkv && (mkvVideoCodecsOf f).length != 0 then
    [⟨"mkv", "Video",
      some (String.intercalate (",") (mkvVideoCodecsOf f)),
      some (String.intercalate (",") (videoAudioCodecsOf f))⟩]
   else [])
  ++ (if f.ts then
    [⟨"ts,mpegts", "Video",
      some (String.intercalate (",") (tsVideoCodecsOf f)),
      some (String.intercalate (",") (videoAudioCodecsOf f))⟩]
   else [])
  ++ (if f.hls && (hlsVideoCodecsOf f).length != 0 then
    [⟨"hls", "Video",
      some (String.intercalate (",") (hlsVideoCodecsOf f)),
      some (String.intercalate (",") (hlsAudioCodecsOf f))⟩]
   else [])
  ++ ((["mp3", "aac", "flac", "wav", "ogg", "opus"].filter f.audioFormat).map
        (fun fmt => ⟨fmt, "Audio", none, none⟩))

/-- The `TranscodingProfiles` list assembled by `getDeviceProfile`. -/
def transcodingProfilesOf (f : Facts) : List TranscodingProfile :=
  (if f.hls && (hlsVideoCodecsOf f).length != 0 then
    [⟨if f.hlsInFmp4 then "mp4" else "ts", "Video",
      String.intercalate (",") (hlsAudioCodecsOf f),
      some (String.intercalate (",") (hlsVideoCodecsOf f)),
      "Streaming", "hls", toString f.physicalAudioChannels, some ("1"), some false⟩]
   else [])
  ++ ((["aac", "mp3", "opus", "wav"].filter f.audioFormat).map
        (fun fmt =>
          ⟨fmt, "Audio", fmt, none, "Streaming", "http",
           toString f.physicalAudioChannels, none, none⟩))

/-- The `ContainerProfiles` list assembled by `getDeviceProfile`. -/
def containerProfilesOf (f : Facts) : List ContainerProfile :=
  if f.tizenVersion < 65 then
    [⟨"Video", [⟨"LessThanEqual", "NumStreams", "32", some false⟩]⟩]
  else []

/-- The `hevcVideoRangeTypes` string of `getDeviceProfile`. -/
def hevcVideoRangeTypesOf (f : Facts) : String :=
  "SDR"
    ++ (if f.hdr10 then "|HDR10|HDR10Plus" else "")
    ++ (if f.hlg then "|HLG" else "")
    ++ (if 30 ≤ f.tizenVersion then
          "|DOVIWithHDR10|DOVIWithHDR10Plus|DOVIWithSDR|DOVIWithHLG"
            ++ "|DOVIWithEL|DOVIWithELHDR10Plus|DOVIInvalid"
        else "")

/-- The `av1VideoRangeTypes` string of `getDeviceProfile`. -/
def av1VideoRangeTypesOf (f : Facts) : String :=
  "SDR"
    ++ (if f.hdr10 then "|HDR10|HDR10Plus" else "")
    ++ (if f.hlg then "|HLG" else "")
    ++ (if 30 ≤ f.tizenVersion then
          "|DOVIWithHDR10|DOVIWithHDR10Plus|DOVIWithEL|DOVIWithELHDR10Plus|DOVIInvalid"
        else "")

/-- String rendering of the bitrate ceiling (only evaluated when truthy). -/
def globalBitrateStr (f : Facts) : String :=
  toString (f.globalMaxVideoBitrate.getD 0)

/-- The `h264Conditions` array of `getDeviceProfile`. -/
def h264ConditionsOf (f : Facts) : List Condition :=
  [⟨"EqualsAny", "VideoProfile", "high|main|baseline|constrained baseline", some false⟩,
   ⟨"EqualsAny", "VideoRangeType", "SDR", some false⟩,
   ⟨"LessThanEqual", "VideoLevel", toString f.maxH264Level, some false⟩]
  ++ (if jsTruthy f.globalMaxVideoBitrate then
        [⟨"LessThanEqual", "VideoBitrate", globalBitrateStr f, some true⟩]
      else [])

/-- The `hevcConditions` array of `getDeviceProfile`. -/
def hevcConditionsOf (f : Facts) : List Condition :=
  [⟨"EqualsAny", "VideoProfile", f.hevcProfiles, some false⟩,
   ⟨"EqualsAny", "VideoRangeType", hevcVideoRangeTypesOf f, some false⟩,
   ⟨"LessThanEqual", "VideoLevel", toString f.maxHevcLevel, some false⟩]
  ++ (if jsTruthy f.globalMaxVideoBitrate then
        [⟨"LessThanEqual", "VideoBitrate", globalBitrateStr f, some true⟩]
      else [])

/-- The `av1Conditions` array of `getDeviceProfile`. -/
def av1ConditionsOf (f : Facts) : List Condition :=
  [⟨"EqualsAny", "VideoProfile", "main", some false⟩,
   ⟨"EqualsAny", "VideoRangeType", av1VideoRangeTypesOf f, some false⟩,
   ⟨"LessThanEqual", "VideoLevel", "15", some false⟩]
  ++ (if jsTruthy f.globalMaxVideoBitrate then
        [⟨"LessThanEqual", "VideoBitrate", globalBitrateStr f, some true⟩]
      else [])

/-- The `CodecProfiles` list assembled by `getDeviceProfile` (the H.264 and
HEVC entries are pushed unconditionally, the AV1 entry only when AV1 decode is
supported, the codec-less bitrate entry only when a ceiling is truthy, and the
audio-channel entry unconditionally). -/
def codecProfilesOf (f : Facts) : List CodecProfile :=
  [⟨"Video", some ("h264"), h264ConditionsOf f⟩,
   ⟨"Video", some ("hevc"), hevcConditionsOf f⟩]
  ++ (if f.av1 then [⟨"Video", some ("av1"), av1ConditionsOf f⟩] else [])
  ++ (if jsTruthy f.globalMaxVideoBitrate then
        [⟨"Video", none, [⟨"LessThanEqual", "VideoBitrate", globalBitrateStr f, none⟩]⟩]
      else [])
  ++ [⟨"VideoAudio", none,
       [⟨"LessThanEqual", "AudioChannels", toString f.physicalAudioChannels, some false⟩]⟩]

/-- The fixed `SubtitleProfiles` list of `getDeviceProfile`. -/
def subtitleProfilesList : List SubtitleProfile :=
  [⟨"vtt", "External"⟩, ⟨"srt", "External"⟩, ⟨"ass", "External"⟩, ⟨"ssa", "External"⟩,
   ⟨"pgssub", "Encode"⟩, ⟨"dvdsub", "Encode"⟩, ⟨"dvbsub", "Encode"⟩, ⟨"sub", "Encode"⟩]

/-- The fixed `ResponseProfiles` list of `getDeviceProfile`. -/
def responseProfilesList : List ResponseProfile :=
  [⟨"Video", "m4v", "video/mp4"⟩]

/-- The document `getDeviceProfile` assembles from the probe results. -/
def assemble (f : Facts) : DeviceProfile where
  maxStreamingBitrate := 120000000
  maxStaticBitrate := 100000000
  musicStreamingTranscodingBitrate := 384000
  directPlayProfiles := directPlayProfilesOf f
  transcodingProfiles := transcodingProfilesOf f
  containerProfiles := containerProfilesOf f
  codecProfiles := codecProfilesOf f
  subtitleProfiles := subtitleProfilesList
  responseProfiles := responseProfilesList

/-- `getDeviceProfile` on platform `p` once the HLS answer is fixed. -/
def getDeviceProfileCore (p : Platform) (hls : Bool) : DeviceProfile :=
  assemble (factsOf p hls)

/-- Embedding of `getDeviceProfile()` with the `_canPlayHls` cache threaded:
returns the document and the updated cache. -/
def getDeviceProfileS (p : Platform) (cache : Option Bool) :
    DeviceProfile × Option Bool :=
  let r := canPlayHlsCached p cache
  (getDeviceProfileCore p r.1, r.2)

/-- Embedding of `getDeviceProfile()` starting from a cold cache. -/
def getDeviceProfile (p : Platform) : DeviceProfile :=
  (getDeviceProfileS p none).1

/-- Split a `|`-delimited enumeration string into its tokens. -/
def splitPipeAux : List Char → List Char → List String
  | [], acc => [String.mk acc.reverse]
  | c :: cs, acc =>
      if c = '|' then String.mk acc.reverse :: splitPipeAux cs []
      else splitPipeAux cs (c :: acc)

/-- Tokens of a `|`-delimited enumeration string such as `VideoRangeType`. -/
def splitPipe (s : String) : List String :=
  splitPipeAux s.toList []

/-- Generic browser with every capability query negative. -/
def pNone : Platform where
  hasTizenObject := false
  uaContainsTizen := false
  uaTizenVersion := none
  videoCanPlay := fun _ => false
  audioCanPlay := fun _ => false
  hasMediaSource := false
  productInfo := ProductInfo.absent

/-- Generic browser whose native query supports exactly the H.264 probe
string: the scenario of spec §8.6. -/
def pBrowserH264 : Platform where
  hasTizenObject := false
  uaContainsTizen := false
  uaTizenVersion := none
  videoCanPlay := fun s => s == "video/mp4; codecs=\"avc1.42E01E, mp4a.40.2\""
  audioCanPlay := fun _ => false
  hasMediaSource := false
  productInfo := ProductInfo.absent

/-- Tizen 5.5 TV with a UHD panel and all native queries negative. -/
def pT55 : Platform where
  hasTizenObject := true
  uaContainsTizen := true
  uaTizenVersion := some (5, 5)
  videoCanPlay := fun _ => false
  audioCanPlay := fun _ => false
  hasMediaSource := false
  productInfo := ProductInfo.panel true

/-- Tizen 5.5 TV whose panel query reports a sub-4K (FHD) panel. -/
def pT55sub : Platform where
  hasTizenObject := true
  uaContainsTizen := true
  uaTizenVersion := some (5, 5)
  videoCanPlay := fun _ => false
  audioCanPlay := fun _ => false
  hasMediaSource := false
  productInfo := ProductInfo.panel false

/-- Tizen 5.5 TV whose panel query throws. -/
def pT55throws : Platform where
  hasTizenObject := true
  uaContainsTizen := true
  uaTizenVersion := some (5, 5)
  videoCanPlay := fun _ => false
  audioCanPlay := fun _ => false
  hasMediaSource := false
  productInfo := ProductInfo.throws

/-- One audio-codec fact flipped from unsupported to supported, every other
probe result unchanged: the premise of the audio monotonicity property. -/
inductive AudioFactFlip : Facts → Facts → Prop
  | ac3 (f : Facts) (h : f.ac3 = false) : AudioFactFlip f { f with ac3 := true }
  | eac3 (f : Facts) (h : f.eac3 = false) : AudioFactFlip f { f with eac3 := true }
  | dts (f : Facts) (h : f.dts = false) : AudioFactFlip f { f with dts := true }
  | format (f : Facts) (fmt : String) (h : f.audioFormat fmt = false) :
      AudioFactFlip f
        { f with audioFormat := fun s => if s == fmt then true else f.audioFormat s }

/-- Membership in a conditionally emitted singleton-or-empty list. -/
theorem mem_ite_nil {α : Type} (a : α) (b : Bool) (l : List α) :
    (a ∈ if b then l else []) ↔ (b = true ∧ a ∈ l) := by
  cases b <;> simp

/-- A conditionally emitted list only grows when its guard flips to true. -/
theorem ite_nil_sublist {α : Type} (b₁ b₂ : Bool) (l : List α)
    (h : b₁ = true → b₂ = true) :
    (if b₁ then l else []).Sublist (if b₂ then l else []) := by
  cases b₁ <;> cases b₂ <;> simp_all

/-- The global bitrate probe returns either no ceiling or the fixed FHD
ceiling of 20,000,000 bits per second. -/
theorem gmvb_cases (p : Platform) :
    getGlobalMaxVideoBitrate p = none ∨ getGlobalMaxVideoBitrate p = some 20000000 := by
  unfold getGlobalMaxVideoBitrate
  split
  · cases hpi : p.productInfo with
    | panel u => cases u <;> simp
    | absent => simp
    | throws => simp
  · exact Or.inl rfl

/-- On probe output the JS truthiness test for the ceiling agrees with
`Option.isSome` (the probe never returns a zero ceiling). -/
theorem jsTruthy_gmvb (p : Platform) :
    jsTruthy (getGlobalMaxVideoBitrate p) = (getGlobalMaxVideoBitrate p).isSome := by
  rcases gmvb_cases p with h | h <;> rw [h] <;> rfl

/-- A platform without HEVC support is not the Tizen platform (Tizen
short-circuits the HEVC probe to true). -/
theorem isTizen_false_of_hevc_false {p : Platform} (h : canPlayHevc p = false) :
    isTizen p = false := by
  by_contra hc
  have ht : isTizen p = true := by
    cases hx : isTizen p
    · exact absurd hx hc
    · rfl
  simp [canPlayHevc, ht] at h

/-- Off the Tizen platform the version probe returns zero. -/
theorem version_zero_of_not_tizen {p : Platform} (h : isTizen p = false) :
    getTizenVersionTenths p = 0 := by
  simp [getTizenVersionTenths, h]

/-- A positive platform version implies the Tizen platform was detected. -/
theorem tizen_of_version_ge {p : Platform} (h : 30 ≤ getTizenVersionTenths p) :
    isTizen p = true := by
  cases hx : isTizen p
  · rw [version_zero_of_not_tizen hx] at h
    omega
  · rfl

/-- Claim C1, amended: when no video codec fact holds, the document has no
video-type `DirectPlayProfiles` entry and no AV1 `CodecProfiles` entry; the
claim that no video `CodecRule` is emitted for an unsupported codec is false
(see `h264_codec_rule_without_support`), since the H.264 and HEVC rules are
pushed unconditionally. -/
theorem noVideoCodec_no_video_rules (p : Platform) (hls : Bool)
    (h1 : canPlayH264 p = false) (h2 : canPlayHevc p = false)
    (h3 : canPlayAv1 p = false) (_h4 : canPlayVp8 p = false) (_h5 : canPlayVp9 p = false) :
    ((getDeviceProfileCore p hls).directPlayProfiles.filter (fun r => r.type == "Video")) = []
    ∧ ((getDeviceProfileCore p hls).codecProfiles.filter (fun c => c.codec == some ("av1"))) = [] := by
  have ht : isTizen p = false := isTizen_false_of_hevc_false h2
  have hts : canPlayTs p = false := by simp [canPlayTs, ht]
  constructor
  · simp only [getDeviceProfileCore, assemble, directPlayProfilesOf, factsOf,
      mp4VideoCodecsOf, mkvVideoCodecsOf, hlsVideoCodecsOf, h1, h2, h3, hts,
      List.filter_append]
    simp [List.filter_map]
  · simp only [getDeviceProfileCore, assemble, codecProfilesOf, factsOf, h3,
      List.filter_append]
    simp

/-- Claim C1, counterexample: on a generic browser where every query is
negative, the H.264 playability fact is false and yet the document contains a
video `CodecRule` for h264, refuting the claim as stated. -/
theorem h264_codec_rule_without_support :
    canPlayH264 pNone = false ∧
    ((getDeviceProfile pNone).codecProfiles.filter (fun c => c.codec == some ("h264"))) ≠ [] := by
  constructor
  · rfl
  · decide

/-- Claim C1, witness: the amended theorem applied to the all-false generic
browser platform. -/
theorem noVideoCodec_no_video_rules_witness :
    ((getDeviceProfile pNone).directPlayProfiles.filter (fun r => r.type == "Video")) = []
    ∧ ((getDeviceProfile pNone).codecProfiles.filter (fun c => c.codec == some ("av1"))) = [] :=
  noVideoCodec_no_video_rules pNone (canPlayHlsPure pNone) rfl rfl rfl rfl rfl

/-- Claim C2: on every platform, a `VideoBitrate` condition on the h264, hevc
or av1 `CodecRule` is present exactly when the global bitrate ceiling fact is
present, and any such condition carries `IsRequired = true`. -/
theorem videoBitrate_condition_iff_ceiling (p : Platform) (hls : Bool)
    (c : CodecProfile) (hc : c ∈ (getDeviceProfileCore p hls).codecProfiles)
    (hcodec : c.codec = some ("h264") ∨ c.codec = some ("hevc") ∨ c.codec = some ("av1")) :
    ((∃ cond ∈ c.conditions, cond.property = "VideoBitrate")
        ↔ (getGlobalMaxVideoBitrate p).isSome = true)
    ∧ (∀ cond ∈ c.conditions, cond.property = "VideoBitrate" →
        cond.isRequired = some true) := by
  have hjt : jsTruthy (getGlobalMaxVideoBitrate p) = (getGlobalMaxVideoBitrate p).isSome :=
    jsTruthy_gmvb p
  simp only [getDeviceProfileCore, assemble, codecProfilesOf, List.mem_append,
    List.mem_cons, List.mem_singleton, mem_ite_nil, List.mem_nil_iff,
    or_false, false_or] at hc
  have hg : (factsOf p hls).globalMaxVideoBitrate = getGlobalMaxVideoBitrate p := rfl
  rcases hc with (((rfl | rfl) | ⟨hav, rfl⟩) | ⟨hbt, rfl⟩) | rfl
  · constructor
    · rw [← hjt]
      cases hb : jsTruthy ((factsOf p hls).globalMaxVideoBitrate) <;>
        rw [hg] at hb <;> simp [h264ConditionsOf, hg, hb]
    · intro cond hcond hprop
      rcases gmvb_cases p with hv | hv <;>
        simp [h264ConditionsOf, hg, hv, jsTruthy, mem_ite_nil] at hcond <;>
        aesop
  · constructor
    · rw [← hjt]
      cases hb : jsTruthy ((factsOf p hls).globalMaxVideoBitrate) <;>
        rw [hg] at hb <;> simp [hevcConditionsOf, hg, hb]
    · intro cond hcond hprop
      rcases gmvb_cases p with hv | hv <;>
        simp [hevcConditionsOf, hg, hv, jsTruthy, mem_ite_nil] at hcond <;>
        aesop
  · constructor
    · rw [← hjt]
      cases hb : jsTruthy ((factsOf p hls).globalMaxVideoBitrate) <;>
        rw [hg] at hb <;> simp [av1ConditionsOf, hg, hb]
    · intro cond hcond hprop
      rcases gmvb_cases p with hv | hv <;>
        simp [av1ConditionsOf, hg, hv, jsTruthy, mem_ite_nil] at hcond <;>
        aesop
  · simp at hcodec
  · simp at hcodec

/-- Claim C2, witness: the theorem applied to the h264 rule of a Tizen 5.5
TV with a sub-4K panel, where the ceiling is present. -/
theorem videoBitrate_condition_iff_ceiling_witness :
    ((∃ cond ∈ ((getDeviceProfile pT55sub).codecProfiles.getD 0 default).conditions,
        cond.property = "VideoBitrate")
      ↔ (getGlobalMaxVideoBitrate pT55sub).isSome = true)
    ∧ (∀ cond ∈ ((getDeviceProfile pT55sub).codecProfiles.getD 0 default).conditions,
        cond.property = "VideoBitrate" → cond.isRequired = some true) :=
  videoBitrate_condition_iff_ceiling pT55sub (canPlayHlsPure pT55sub)
    ((getDeviceProfile pT55sub).codecProfiles.getD 0 default)
    (by decide) (Or.inl (by decide))

/-- Claim C3: `supportsDolbyVision` is false on every platform, while the
`VideoRangeType` value of the HEVC `CodecRule` contains the whole
Dolby-Vision-fallback family exactly when the platform version is at least 3,
and contains no DOVI variant below version 3. -/
theorem dolbyVision_false_and_dovi_fallback (p : Platform) (hls : Bool) :
    supportsDolbyVision p = false
    ∧ ∀ c ∈ (getDeviceProfileCore p hls).codecProfiles, c.codec = some ("hevc") →
        ∀ cond ∈ c.conditions, cond.property = "VideoRangeType" →
          ((30 ≤ getTizenVersionTenths p →
             ∀ t ∈ (["DOVIWithHDR10", "DOVIWithHDR10Plus", "DOVIWithSDR", "DOVIWithHLG",
                      "DOVIWithEL", "DOVIWithELHDR10Plus", "DOVIInvalid"] : List String),
               t ∈ splitPipe cond.value)
           ∧ (getTizenVersionTenths p < 30 →
               ∀ t ∈ splitPipe cond.value,
                 t ∈ (["SDR", "HDR10", "HDR10Plus", "HLG"] : List String))) := by
  refine ⟨rfl, ?_⟩
  intro c hc hcodec cond hcond hprop
  simp only [getDeviceProfileCore, assemble, codecProfilesOf, List.mem_append,
    List.mem_cons, List.mem_singleton, mem_ite_nil, List.mem_nil_iff,
    or_false, false_or] at hc
  rcases hc with (((rfl | rfl) | ⟨hav, rfl⟩) | ⟨hbt, rfl⟩) | rfl
  · simp at hcodec
  · rcases gmvb_cases p with hv | hv <;>
      have hg : (factsOf p hls).globalMaxVideoBitrate = getGlobalMaxVideoBitrate p := rfl <;>
      simp [hevcConditionsOf, hg, hv, jsTruthy, mem_ite_nil] at hcond <;>
      have hval : cond.value = hevcVideoRangeTypesOf (factsOf p hls) := by aesop
    all_goals rw [hval]
    all_goals {
      have hvt : (factsOf p hls).tizenVersion = getTizenVersionTenths p := rfl
      by_cases h30 : 30 ≤ getTizenVersionTenths p
      · have ht : isTizen p = true := tizen_of_version_ge h30
        have hh : (factsOf p hls).hdr10 = true := by simp [factsOf, supportsHdr10, ht]
        have hl : (factsOf p hls).hlg = true := by
          simp [factsOf, supportsHlg, supportsHdr10, ht]
        rw [hevcVideoRangeTypesOf, hh, hl, hvt, if_pos rfl, if_pos rfl, if_pos h30]
        constructor
        · intro _
          decide
        · intro hlt
          omega
      · have h30x : ¬ 30 ≤ (factsOf p hls).tizenVersion := by rw [hvt]; exact h30
        rw [hevcVideoRangeTypesOf, if_neg h30x]
        refine ⟨fun hcon => absurd hcon h30, fun _ => ?_⟩
        cases hh : (factsOf p hls).hdr10 <;> cases hl : (factsOf p hls).hlg <;>
          simp [hh, hl] <;> decide
    }
  · simp at hcodec
  · simp at hcodec
  · simp at hcodec

/-- Claim C3, witness: the theorem applied to the HEVC rule of a Tizen 5.5
TV (version at least 3), exhibiting the full fallback family. -/
theorem dolbyVision_false_and_dovi_fallback_witness :
    supportsDolbyVision pT55 = false
    ∧ ∀ t ∈ (["DOVIWithHDR10", "DOVIWithHDR10Plus", "DOVIWithSDR", "DOVIWithHLG",
               "DOVIWithEL", "DOVIWithELHDR10Plus", "DOVIInvalid"] : List String),
        t ∈ splitPipe ((((getDeviceProfileCore pT55 true).codecProfiles.getD 1 default).conditions.getD 1
              default).value) := by
  have h := dolbyVision_false_and_dovi_fallback pT55 true
  refine ⟨h.1, ?_⟩
  have h2 := h.2 ((getDeviceProfileCore pT55 true).codecProfiles.getD 1 default) (by decide)
      (by decide)
      (((getDeviceProfileCore pT55 true).codecProfiles.getD 1 default).conditions.getD 1 default)
      (by decide) (by decide)
  exact h2.1 (by decide)

/-- Claim C4, counterexample: in the generic-browser H.264-only scenario the
document does contain an HEVC `CodecRule` and more than one `CodecRule`,
refuting the claim as stated. -/
theorem generic_scenario_extra_codec_rules :
    ((getDeviceProfile pBrowserH264).codecProfiles.filter
        (fun c => c.codec == some ("hevc"))) ≠ []
    ∧ (getDeviceProfile pBrowserH264).codecProfiles.length ≠ 1 := by
  decide

/-- Claim C4, amended: in the generic-browser H.264-only scenario the document
has exactly one `DirectPlayRule` (mp4,m4v / h264 / aac,mp3), no TS rule, no
transcoding rule, the h264 `CodecRule` with level ceiling 42 and SDR only and
no bitrate condition, but additionally an unconditional HEVC `CodecRule`
(main, SDR, level 120) and the audio-channel `CodecRule`. -/
theorem generic_scenario_profile :
    (getDeviceProfile pBrowserH264).directPlayProfiles =
      [⟨"mp4,m4v", "Video", some ("h264"), some ("aac,mp3")⟩]
    ∧ (getDeviceProfile pBrowserH264).codecProfiles =
      [⟨"Video", some ("h264"),
         [⟨"EqualsAny", "VideoProfile", "high|main|baseline|constrained baseline", some false⟩,
          ⟨"EqualsAny", "VideoRangeType", "SDR", some false⟩,
          ⟨"LessThanEqual", "VideoLevel", "42", some false⟩]⟩,
       ⟨"Video", some ("hevc"),
         [⟨"EqualsAny", "VideoProfile", "main", some false⟩,
          ⟨"EqualsAny", "VideoRangeType", "SDR", some false⟩,
          ⟨"LessThanEqual", "VideoLevel", "120", some false⟩]⟩,
       ⟨"VideoAudio", none, [⟨"LessThanEqual", "AudioChannels", "2", some false⟩]⟩]
    ∧ (getDeviceProfile pBrowserH264).transcodingProfiles = []
    ∧ (getDeviceProfile pBrowserH264).containerProfiles =
        [⟨"Video", [⟨"LessThanEqual", "NumStreams", "32", some false⟩]⟩] := by
  decide

/-- Claim C5, counterexample: on a Tizen 5.5 TV the AV1 rule is present and
version is at least 3, yet its `VideoRangeType` tokens omit `DOVIWithSDR`
which the HEVC rule includes, refuting the claimed mirroring of the
Dolby-Vision-fallback family. -/
theorem av1_range_not_mirroring_hevc :
    canPlayAv1 pT55 = true
    ∧ 30 ≤ getTizenVersionTenths pT55
    ∧ (∃ c ∈ (getDeviceProfile pT55).codecProfiles, c.codec = some ("av1"))
    ∧ ((getDeviceProfile pT55).codecProfiles.getD 1 default).codec = some ("hevc")
    ∧ ((getDeviceProfile pT55).codecProfiles.getD 2 default).codec = some ("av1")
    ∧ "DOVIWithSDR" ∈ splitPipe ((((getDeviceProfile pT55).codecProfiles.getD 1
          default).conditions.getD 1 default).value)
    ∧ "DOVIWithSDR" ∉ splitPipe ((((getDeviceProfile pT55).codecProfiles.getD 2
          default).conditions.getD 1 default).value) := by
  refine ⟨rfl, by decide,
    ⟨(getDeviceProfile pT55).codecProfiles.getD 2 default, by decide, by decide⟩,
    by decide, by decide, by decide, by decide⟩

/-- Claim C5, amended: an AV1 `CodecRule` is present exactly when AV1 decode
is supported, fixed at profile main and level ceiling 15 with the usual
conditional required bitrate clause; its range-type string mirrors the HEVC
construction below version 3, while from version 3 on its Dolby-Vision
addition omits `DOVIWithSDR` and `DOVIWithHLG`, which the HEVC string has. -/
theorem av1_codec_rule_characterization (p : Platform) (hls : Bool) :
    (((getDeviceProfileCore p hls).codecProfiles.filter
        (fun c => c.codec == some ("av1"))) ≠ [] ↔ canPlayAv1 p = true)
    ∧ (∀ c ∈ (getDeviceProfileCore p hls).codecProfiles, c.codec = some ("av1") →
        c.conditions =
          [⟨"EqualsAny", "VideoProfile", "main", some false⟩,
           ⟨"EqualsAny", "VideoRangeType", av1VideoRangeTypesOf (factsOf p hls), some false⟩,
           ⟨"LessThanEqual", "VideoLevel", "15", some false⟩]
          ++ (if (getGlobalMaxVideoBitrate p).isSome then
                [⟨"LessThanEqual", "VideoBitrate", "20000000", some true⟩]
              else []))
    ∧ (getTizenVersionTenths p < 30 →
        av1VideoRangeTypesOf (factsOf p hls) = hevcVideoRangeTypesOf (factsOf p hls))
    ∧ (30 ≤ getTizenVersionTenths p →
        hevcVideoRangeTypesOf (factsOf p hls) =
          "SDR|HDR10|HDR10Plus|HLG|DOVIWithHDR10|DOVIWithHDR10Plus|DOVIWithSDR|DOVIWithHLG|DOVIWithEL|DOVIWithELHDR10Plus|DOVIInvalid"
        ∧ av1VideoRangeTypesOf (factsOf p hls) =
          "SDR|HDR10|HDR10Plus|HLG|DOVIWithHDR10|DOVIWithHDR10Plus|DOVIWithEL|DOVIWithELHDR10Plus|DOVIInvalid") := by
  have hg : (factsOf p hls).globalMaxVideoBitrate = getGlobalMaxVideoBitrate p := rfl
  have hvt : (factsOf p hls).tizenVersion = getTizenVersionTenths p := rfl
  have hav : (factsOf p hls).av1 = canPlayAv1 p := rfl
  refine ⟨?_, ?_, ?_, ?_⟩
  · rcases gmvb_cases p with hv | hv <;>
      cases ha : canPlayAv1 p <;>
      simp [getDeviceProfileCore, assemble, codecProfilesOf, hg, hv, jsTruthy,
        List.filter_append,
        apply_ite (List.filter (fun c : CodecProfile => c.codec == some ("av1"))), hav, ha]
  · intro c hc hcodec
    simp only [getDeviceProfileCore, assemble, codecProfilesOf, List.mem_append,
      List.mem_cons, List.mem_singleton, mem_ite_nil, List.mem_nil_iff,
      or_false, false_or] at hc
    rcases hc with (((rfl | rfl) | ⟨hav2, rfl⟩) | ⟨hbt, rfl⟩) | rfl
    · simp at hcodec
    · simp at hcodec
    · rcases gmvb_cases p with hv | hv <;>
        simp [av1ConditionsOf, hg, hv, jsTruthy, globalBitrateStr] <;> decide
    · simp at hcodec
    · simp at hcodec
  · intro h30
    have h30x : ¬ 30 ≤ (factsOf p hls).tizenVersion := by rw [hvt]; omega
    rw [av1VideoRangeTypesOf, hevcVideoRangeTypesOf, if_neg h30x, if_neg h30x]
  · intro h30
    have ht : isTizen p = true := tizen_of_version_ge h30
    have hh : (factsOf p hls).hdr10 = true := by simp [factsOf, supportsHdr10, ht]
    have hl : (factsOf p hls).hlg = true := by
      simp [factsOf, supportsHlg, supportsHdr10, ht]
    have h30x : 30 ≤ (factsOf p hls).tizenVersion := by rw [hvt]; exact h30
    rw [av1VideoRangeTypesOf, hevcVideoRangeTypesOf, hh, hl, if_pos rfl, if_pos rfl,
      if_pos h30x, if_pos h30x]
    exact ⟨by decide, by decide⟩

/-- Claim C5, witness: the amended theorem applied to a Tizen 5.5 TV with a
sub-4K panel (AV1 supported, ceiling present, version at least 3). -/
theorem av1_codec_rule_characterization_witness :
    (((getDeviceProfileCore pT55sub true).codecProfiles.filter
        (fun c => c.codec == some ("av1"))) ≠ [])
    ∧ ((getDeviceProfileCore pT55sub true).codecProfiles.getD 2 default).conditions =
        [⟨"EqualsAny", "VideoProfile", "main", some false⟩,
         ⟨"EqualsAny", "VideoRangeType", av1VideoRangeTypesOf (factsOf pT55sub true), some false⟩,
         ⟨"LessThanEqual", "VideoLevel", "15", some false⟩]
        ++ (if (getGlobalMaxVideoBitrate pT55sub).isSome then
              [⟨"LessThanEqual", "VideoBitrate", "20000000", some true⟩]
            else [])
    ∧ hevcVideoRangeTypesOf (factsOf pT55sub true) =
        "SDR|HDR10|HDR10Plus|HLG|DOVIWithHDR10|DOVIWithHDR10Plus|DOVIWithSDR|DOVIWithHLG|DOVIWithEL|DOVIWithELHDR10Plus|DOVIInvalid"
    ∧ av1VideoRangeTypesOf (factsOf pT55sub true) =
        "SDR|HDR10|HDR10Plus|HLG|DOVIWithHDR10|DOVIWithHDR10Plus|DOVIWithEL|DOVIWithELHDR10Plus|DOVIInvalid" := by
  have h := av1_codec_rule_characterization pT55sub true
  refine ⟨h.1.mpr (by decide), h.2.1 _ (by decide) (by decide),
    (h.2.2.2 (by decide)).1, (h.2.2.2 (by decide)).2⟩

/-- Claim C6: the builder is deterministic; with the `_canPlayHls` cache
threaded through, a second call on the same platform returns a document equal
to the first, from any initial cache state. -/
theorem profile_build_deterministic (p : Platform) (s : Option Bool) :
    (getDeviceProfileS p (getDeviceProfileS p s).2).1 = (getDeviceProfileS p s).1 := by
  cases s <;> rfl

/-- Monotonicity core: whenever the second fact set dominates the first in the
audio-codec facts and agrees on everything else, the container and codec
profile lists are unchanged, the direct-play rule keys only grow, the audio
codec lists only gain entries, and the video codec lists are unchanged. -/
theorem assemble_audio_mono (f₁ f₂ : Facts)
    (hTiz : f₂.tizen = f₁.tizen) (hVer : f₂.tizenVersion = f₁.tizenVersion)
    (hH264 : f₂.h264 = f₁.h264) (hHevc : f₂.hevc = f₁.hevc) (hAv1 : f₂.av1 = f₁.av1)
    (hAc3 : f₁.ac3 = true → f₂.ac3 = true)
    (hEac3 : f₁.eac3 = true → f₂.eac3 = true)
    (hDts : f₁.dts = true → f₂.dts = true)
    (hFmt : ∀ s, f₁.audioFormat s = true → f₂.audioFormat s = true)
    (hHls : f₂.hls = f₁.hls) (_hFmp4 : f₂.hlsInFmp4 = f₁.hlsInFmp4)
    (hHdr : f₂.hdr10 = f₁.hdr10) (hHlg : f₂.hlg = f₁.hlg)
    (hMkv : f₂.mkv = f₁.mkv) (hTs : f₂.ts = f₁.ts)
    (hL1 : f₂.maxH264Level = f₁.maxH264Level) (hL2 : f₂.maxHevcLevel = f₁.maxHevcLevel)
    (hProf : f₂.hevcProfiles = f₁.hevcProfiles)
    (hCh : f₂.physicalAudioChannels = f₁.physicalAudioChannels)
    (hBr : f₂.globalMaxVideoBitrate = f₁.globalMaxVideoBitrate) :
    (assemble f₂).containerProfiles = (assemble f₁).containerProfiles
    ∧ (assemble f₂).codecProfiles = (assemble f₁).codecProfiles
    ∧ ((assemble f₁).directPlayProfiles.map (fun r => (r.container, r.type))).Sublist
        ((assemble f₂).directPlayProfiles.map (fun r => (r.container, r.type)))
    ∧ (videoAudioCodecsOf f₁).Sublist (videoAudioCodecsOf f₂)
    ∧ (hlsAudioCodecsOf f₁).Sublist (hlsAudioCodecsOf f₂)
    ∧ mp4VideoCodecsOf f₂ = mp4VideoCodecsOf f₁
    ∧ mkvVideoCodecsOf f₂ = mkvVideoCodecsOf f₁
    ∧ hlsVideoCodecsOf f₂ = hlsVideoCodecsOf f₁
    ∧ tsVideoCodecsOf f₂ = tsVideoCodecsOf f₁ := by
  have hmp4 : mp4VideoCodecsOf f₂ = mp4VideoCodecsOf f₁ := by
    simp only [mp4VideoCodecsOf, hH264, hHevc, hAv1]
  have hmkv : mkvVideoCodecsOf f₂ = mkvVideoCodecsOf f₁ := by
    simp only [mkvVideoCodecsOf, hH264, hHevc, hAv1]
  have hhlsv : hlsVideoCodecsOf f₂ = hlsVideoCodecsOf f₁ := by
    simp only [hlsVideoCodecsOf, hH264, hHevc, hTiz]
  have htsv : tsVideoCodecsOf f₂ = tsVideoCodecsOf f₁ := by
    simp only [tsVideoCodecsOf, hHevc]
  have hvac : (videoAudioCodecsOf f₁).Sublist (videoAudioCodecsOf f₂) := by
    unfold videoAudioCodecsOf
    refine List.Sublist.append (List.Sublist.append (List.Sublist.append
      (List.Sublist.append (List.Sublist.append (List.Sublist.append
        (List.Sublist.refl _)
        (ite_nil_sublist _ _ _ hAc3))
        (ite_nil_sublist _ _ _ hEac3))
        (ite_nil_sublist _ _ _ hDts))
        (by rw [hTiz]))
        (ite_nil_sublist _ _ _ (hFmt _)))
        (ite_nil_sublist _ _ _ ?_)
    intro hx
    simp only [Bool.and_eq_true, Bool.not_eq_eq_eq_not, Bool.not_true] at hx ⊢
    exact ⟨hFmt _ hx.1, by rw [hTiz]; exact hx.2⟩
  have hhlsa : (hlsAudioCodecsOf f₁).Sublist (hlsAudioCodecsOf f₂) := by
    unfold hlsAudioCodecsOf
    refine List.Sublist.append (List.Sublist.append
      (List.Sublist.refl _)
      (ite_nil_sublist _ _ _ hAc3))
      (ite_nil_sublist _ _ _ hEac3)
  refine ⟨?_, ?_, ?_, hvac, hhlsa, hmp4, hmkv, hhlsv, htsv⟩
  · simp only [assemble, containerProfilesOf, hVer]
  · simp only [assemble, codecProfilesOf, h264ConditionsOf, hevcConditionsOf,
      av1ConditionsOf, hevcVideoRangeTypesOf, av1VideoRangeTypesOf, globalBitrateStr,
      hAv1, hBr, hL1, hL2, hProf, hCh, hHdr, hHlg, hVer]
  · simp only [assemble, directPlayProfilesOf, List.map_append,
      apply_ite (List.map (fun r : DirectPlayProfile => (r.container, r.type))),
      List.map_map, List.map_cons, List.map_nil,
      hmp4, hmkv, hhlsv, htsv, hHls, hMkv, hTs]
    refine List.Sublist.append (List.Sublist.refl _) ?_
    exact List.Sublist.map _ (List.monotone_filter_right _ hFmt)

/-- Claim C7: flipping a single audio-codec fact from unsupported to
supported never removes a `DirectPlayRule` (identified by container and type)
or any condition (the container and codec profile lists are unchanged); it
only adds entries to the audio codec lists, leaving the video codec lists
untouched. -/
theorem audio_fact_flip_monotone (f₁ f₂ : Facts) (h : AudioFactFlip f₁ f₂) :
    (assemble f₂).containerProfiles = (assemble f₁).containerProfiles
    ∧ (assemble f₂).codecProfiles = (assemble f₁).codecProfiles
    ∧ ((assemble f₁).directPlayProfiles.map (fun r => (r.container, r.type))).Sublist
        ((assemble f₂).directPlayProfiles.map (fun r => (r.container, r.type)))
    ∧ (videoAudioCodecsOf f₁).Sublist (videoAudioCodecsOf f₂)
    ∧ (hlsAudioCodecsOf f₁).Sublist (hlsAudioCodecsOf f₂)
    ∧ mp4VideoCodecsOf f₂ = mp4VideoCodecsOf f₁
    ∧ mkvVideoCodecsOf f₂ = mkvVideoCodecsOf f₁
    ∧ hlsVideoCodecsOf f₂ = hlsVideoCodecsOf f₁
    ∧ tsVideoCodecsOf f₂ = tsVideoCodecsOf f₁ := by
  cases h with
  | ac3 hf =>
      exact assemble_audio_mono f₁ _ rfl rfl rfl rfl rfl (fun _ => rfl) (fun hx => hx)
        (fun hx => hx) (fun _ hx => hx) rfl rfl rfl rfl rfl rfl rfl rfl rfl rfl rfl
  | eac3 hf =>
      exact assemble_audio_mono f₁ _ rfl rfl rfl rfl rfl (fun hx => hx) (fun _ => rfl)
        (fun hx => hx) (fun _ hx => hx) rfl rfl rfl rfl rfl rfl rfl rfl rfl rfl rfl
  | dts hf =>
      exact assemble_audio_mono f₁ _ rfl rfl rfl rfl rfl (fun hx => hx) (fun hx => hx)
        (fun _ => rfl) (fun _ hx => hx) rfl rfl rfl rfl rfl rfl rfl rfl rfl rfl rfl
  | format fmt hf =>
      refine assemble_audio_mono f₁ _ rfl rfl rfl rfl rfl (fun hx => hx) (fun hx => hx)
        (fun hx => hx) ?_ rfl rfl rfl rfl rfl rfl rfl rfl rfl rfl rfl
      intro s hx
      show (if s == fmt then true else f₁.audioFormat s) = true
      by_cases hsf : (s == fmt) = true <;> simp [hsf, hx]

/-- Claim C7, witness: the theorem applied to the all-false generic browser
facts with the AC-3 fact flipped on. -/
theorem audio_fact_flip_monotone_witness :
    ((assemble (factsOf pNone false)).directPlayProfiles.map
        (fun r => (r.container, r.type))).Sublist
      ((assemble { factsOf pNone false with ac3 := true }).directPlayProfiles.map
        (fun r => (r.container, r.type)))
    ∧ (videoAudioCodecsOf (factsOf pNone false)).Sublist
        (videoAudioCodecsOf { factsOf pNone false with ac3 := true }) :=
  ⟨(audio_fact_flip_monotone (factsOf pNone false) _
      (AudioFactFlip.ac3 (factsOf pNone false) rfl)).2.2.1,
   (audio_fact_flip_monotone (factsOf pNone false) _
      (AudioFactFlip.ac3 (factsOf pNone false) rfl)).2.2.2.1⟩

/-- Claim C8: a missing or throwing panel query yields no ceiling (an absent
value), a ceiling is returned only as 20,000,000 on a confirmed sub-4K Tizen
panel, and the document is still fully assembled on every platform. -/
theorem global_bitrate_fail_open (p : Platform) :
    (p.productInfo = ProductInfo.absent ∨ p.productInfo = ProductInfo.throws →
      getGlobalMaxVideoBitrate p = none)
    ∧ (∀ v, getGlobalMaxVideoBitrate p = some v →
        v = 20000000 ∧ isTizen p = true ∧ p.productInfo = ProductInfo.panel false)
    ∧ (getDeviceProfile p).subtitleProfiles.length = 8
    ∧ (getDeviceProfile p).responseProfiles.length = 1
    ∧ (getDeviceProfile p).codecProfiles ≠ [] := by
  refine ⟨?_, ?_, rfl, rfl, ?_⟩
  · intro h
    rcases h with h | h <;> simp [getGlobalMaxVideoBitrate, h]
  · intro v hv
    unfold getGlobalMaxVideoBitrate at hv
    by_cases ht : isTizen p = true
    · rw [if_pos ht] at hv
      cases hpi : p.productInfo with
      | panel u =>
        rw [hpi] at hv
        cases u
        · simp at hv
          exact ⟨hv.symm, ht, rfl⟩
        · simp at hv
      | absent => rw [hpi] at hv; simp at hv
      | throws => rw [hpi] at hv; simp at hv
    · simp [ht] at hv
  · simp [getDeviceProfile, getDeviceProfileS, getDeviceProfileCore, assemble, codecProfilesOf]

/-- Claim C8, witness: the theorem applied to a Tizen TV whose panel query
throws. -/
theorem global_bitrate_fail_open_witness :
    getGlobalMaxVideoBitrate pT55throws = none
    ∧ (getDeviceProfile pT55throws).subtitleProfiles.length = 8
    ∧ (getDeviceProfile pT55throws).codecProfiles ≠ [] :=
  ⟨(global_bitrate_fail_open pT55throws).1 (Or.inr rfl),
   (global_bitrate_fail_open pT55throws).2.2.1,
   (global_bitrate_fail_open pT55throws).2.2.2.2⟩

/-- Claim C9: on the Tizen platform, every video-container `DirectPlayRule`
audio list is the join of a codec list that does not contain flac (and the
HLS audio list never does), while the standalone flac audio `DirectPlayRule`
is still emitted. -/
theorem tizen_flac_video_container_exclusion (p : Platform) (hls : Bool)
    (ht : isTizen p = true) :
    (∀ r ∈ (getDeviceProfileCore p hls).directPlayProfiles, r.type = "Video" →
        r.audioCodec = some (String.intercalate (",") (videoAudioCodecsOf (factsOf p hls)))
        ∨ r.audioCodec = some (String.intercalate (",") (hlsAudioCodecsOf (factsOf p hls))))
    ∧ "flac" ∉ videoAudioCodecsOf (factsOf p hls)
    ∧ "flac" ∉ hlsAudioCodecsOf (factsOf p hls)
    ∧ (⟨"flac", "Audio", none, none⟩ : DirectPlayProfile) ∈
        (getDeviceProfileCore p hls).directPlayProfiles := by
  have htz : (factsOf p hls).tizen = true := ht
  have hfl : (factsOf p hls).audioFormat ("flac") = true := by
    show canPlayAudioFormat p ("flac") = true
    simp [canPlayAudioFormat, ht]
  refine ⟨?_, ?_, ?_, ?_⟩
  · intro r hr htype
    simp only [getDeviceProfileCore, assemble, directPlayProfilesOf, List.mem_append,
      mem_ite_nil, List.mem_singleton, List.mem_map] at hr
    rcases hr with ((((⟨h1, rfl⟩ | ⟨h2, rfl⟩) | ⟨h3, rfl⟩) | ⟨h4, rfl⟩)) | ⟨fmt, hf, rfl⟩
    · exact Or.inl rfl
    · exact Or.inl rfl
    · exact Or.inl rfl
    · exact Or.inr rfl
    · simp at htype
  · simp [videoAudioCodecsOf, mem_ite_nil, htz]
  · simp [hlsAudioCodecsOf, mem_ite_nil]
  · show _ ∈ directPlayProfilesOf (factsOf p hls)
    unfold directPlayProfilesOf
    refine List.mem_append.mpr (Or.inr ?_)
    exact List.mem_map.mpr ⟨"flac", List.mem_filter.mpr ⟨by decide, hfl⟩, rfl⟩

/-- Claim C9, witness: the theorem applied to a Tizen 5.5 TV. -/
theorem tizen_flac_video_container_exclusion_witness :
    ("flac" ∉ videoAudioCodecsOf (factsOf pT55 true))
    ∧ (⟨"flac", "Audio", none, none⟩ : DirectPlayProfile) ∈
        (getDeviceProfileCore pT55 true).directPlayProfiles :=
  ⟨(tizen_flac_video_container_exclusion pT55 true rfl).2.1,
   (tizen_flac_video_container_exclusion pT55 true rfl).2.2.2⟩

/-- Claim C10: every non-Tizen platform has version 0, so the 32-stream
`ContainerRule` (advisory `NumStreams` at most 32) is present in the document
of every generic browser. -/
theorem nonTizen_stream_count_rule (p : Platform) (hls : Bool)
    (h : isTizen p = false) :
    getTizenVersionTenths p = 0
    ∧ (getDeviceProfileCore p hls).containerProfiles =
        [⟨"Video", [⟨"LessThanEqual", "NumStreams", "32", some false⟩]⟩] := by
  have hv := version_zero_of_not_tizen h
  refine ⟨hv, ?_⟩
  simp [getDeviceProfileCore, assemble, containerProfilesOf, factsOf, hv]

/-- Claim C10, witness: the theorem applied to the all-false generic browser
platform. -/
theorem nonTizen_stream_count_rule_witness :
    getTizenVersionTenths pNone = 0
    ∧ (getDeviceProfileCore pNone false).containerProfiles =
        [⟨"Video", [⟨"LessThanEqual", "NumStreams", "32", some false⟩]⟩] :=
  nonTizen_stream_count_rule pNone false rfl

end BrowserDeviceProfile
